import Mathlib

/-!
Verification of the natal-chart computation engine of the astrology-api
repository: a shallow embedding of the timezone handler, the position
interpreter, the whole-sign house assigner, the retrograde classifier and
the chart assembler, with theorems settling the specification claims.
Python floats are modelled by exact rationals; provider calls are modelled
by explicit response functions; raised exceptions are modelled by `Option`.
-/

/-- Boolean test that the first character list is a prefix of the second. -/
def listIsPref : List Char → List Char → Bool
  | [], _ => true
  | _ :: _, [] => false
  | a :: as, b :: bs => a == b && listIsPref as bs

/-- Boolean substring test on character lists, mirroring the Python
`pat in s` operator on strings. -/
def containsSub (pat : List Char) : List Char → Bool
  | [] => pat.isEmpty
  | c :: rest => listIsPref pat (c :: rest) || containsSub pat rest

/-- Lower-casing of a character list, mirroring `str.lower()` on the
ASCII inputs used by the timezone handler. -/
def toLowerL (l : List Char) : List Char := l.map Char.toLower

/-- The apostrophe character used between the minutes and the seconds of
a DMS string. -/
def apos : String := ⟨[Char.ofNat 39]⟩

/-- Python `int()` conversion: truncation toward zero. -/
def pyInt (q : ℚ) : ℤ := if q < 0 then ⌈q⌉ else ⌊q⌋

/-- Python `x % 1` on a float: `x` minus its floor. -/
def pyMod1 (q : ℚ) : ℚ := q - ⌊q⌋

/-- Python `"%02d" % n`: decimal rendering zero-padded to two characters. -/
def pad2 (n : ℤ) : String := if 0 ≤ n ∧ n < 10 then "0" ++ toString n else toString n

namespace ChartFormatter

/-- `format_exact_degree` from `src/services/chart_formatter.py`: the
degrees, minutes and seconds are each truncated with `int()`, and the file
renders the degree mark as the two characters `Â°` (its literal bytes). -/
def format_exact_degree (degree : ℚ) : String :=
  let deg := pyInt degree
  let min_val := pyInt (pyMod1 degree * 60)
  let sec := pyInt (pyMod1 (pyMod1 degree * 60) * 60)
  toString deg ++ "Â°" ++ pad2 min_val ++ apos ++ pad2 sec ++ "\""

end ChartFormatter

namespace FreeAstrologyApi

/-- `_format_exact_degree` from `src/services/free_astrology_api.py`:
identical truncating arithmetic, rendering the degree mark as `°`. -/
def format_exact_degree (degree : ℚ) : String :=
  let deg := pyInt degree
  let min_val := pyInt (pyMod1 degree * 60)
  let sec := pyInt (pyMod1 (pyMod1 degree * 60) * 60)
  toString deg ++ "°" ++ pad2 min_val ++ apos ++ pad2 sec ++ "\""

end FreeAstrologyApi

/-- The three numeric components produced by the source formatters. -/
def dms_parts (degree : ℚ) : ℤ × ℤ × ℤ :=
  (pyInt degree, pyInt (pyMod1 degree * 60), pyInt (pyMod1 (pyMod1 degree * 60) * 60))

/-- The DMS components as the specification words them: `deg = floor(d)`,
`min = floor((d - deg) * 60)`, `sec = floor((((d - deg) * 60) - min) * 60)`. -/
def dms_parts_spec (d : ℚ) : ℤ × ℤ × ℤ :=
  (⌊d⌋, ⌊(d - ⌊d⌋) * 60⌋, ⌊((d - ⌊d⌋) * 60 - ⌊(d - ⌊d⌋) * 60⌋) * 60⌋)

/-- The ordered zodiac table shared by every service
(`self.zodiac_signs` in `src/services/astrology_calculations.py`). -/
def zodiac_signs : List String :=
  ["Aries", "Taurus", "Gemini", "Cancer", "Leo", "Virgo", "Libra",
   "Scorpio", "Sagittarius", "Capricorn", "Aquarius", "Pisces"]

/-- One entry of `self.timezone_regions` in
`src/services/timezone_handler.py`. -/
structure Region where
  standard_offset : ℚ
  dst_months : List ℕ
  dst_offset : ℚ

/-- The `timezone_regions` table of `TimezoneHandler.__init__`, keyed by
region name. -/
def timezone_regions : List (List Char × Region) :=
  [("adelaide".toList, ⟨9.5, [10, 11, 12, 1, 2, 3], 10.5⟩),
   ("sydney".toList, ⟨10.0, [10, 11, 12, 1, 2, 3], 11.0⟩),
   ("melbourne".toList, ⟨10.0, [10, 11, 12, 1, 2, 3], 11.0⟩),
   ("perth".toList, ⟨8.0, [], 8.0⟩),
   ("darwin".toList, ⟨9.5, [], 9.5⟩),
   ("new_york".toList, ⟨-5.0, [3, 4, 5, 6, 7, 8, 9, 10], -4.0⟩),
   ("los_angeles".toList, ⟨-8.0, [3, 4, 5, 6, 7, 8, 9, 10], -7.0⟩),
   ("chicago".toList, ⟨-6.0, [3, 4, 5, 6, 7, 8, 9, 10], -5.0⟩),
   ("denver".toList, ⟨-7.0, [3, 4, 5, 6, 7, 8, 9, 10], -6.0⟩),
   ("london".toList, ⟨0.0, [3, 4, 5, 6, 7, 8, 9, 10], 1.0⟩),
   ("paris".toList, ⟨1.0, [3, 4, 5, 6, 7, 8, 9, 10], 2.0⟩),
   ("berlin".toList, ⟨1.0, [3, 4, 5, 6, 7, 8, 9, 10], 2.0⟩),
   ("moscow".toList, ⟨3.0, [], 3.0⟩),
   ("tokyo".toList, ⟨9.0, [], 9.0⟩),
   ("beijing".toList, ⟨8.0, [], 8.0⟩),
   ("mumbai".toList, ⟨5.5, [], 5.5⟩),
   ("dubai".toList, ⟨4.0, [], 4.0⟩)]

/-- The `city_mappings` variant table of `_normalize_location_name`,
in the source's insertion order. -/
def city_mappings : List (List Char × List Char) :=
  [("adelaide".toList, "adelaide".toList),
   ("sydney".toList, "sydney".toList),
   ("melbourne".toList, "melbourne".toList),
   ("perth".toList, "perth".toList),
   ("darwin".toList, "darwin".toList),
   ("new york".toList, "new_york".toList),
   ("los angeles".toList, "los_angeles".toList),
   ("chicago".toList, "chicago".toList),
   ("denver".toList, "denver".toList),
   ("london".toList, "london".toList),
   ("paris".toList, "paris".toList),
   ("berlin".toList, "berlin".toList),
   ("moscow".toList, "moscow".toList),
   ("tokyo".toList, "tokyo".toList),
   ("beijing".toList, "beijing".toList),
   ("mumbai".toList, "mumbai".toList),
   ("dubai".toList, "dubai".toList)]

/-- The seventeen city-name substrings tested by the loop of
`_normalize_location_name`. -/
def city_variants : List (List Char) := city_mappings.map (fun p => p.1)

/-- `_normalize_location_name` from `src/services/timezone_handler.py`:
empty input yields the empty key; otherwise the lower-cased label is
scanned for the first matching city substring, then for the state and
region substrings. -/
def normalize_location_name (location : List Char) : List Char :=
  if location = [] then []
  else
    let location_lower := toLowerL location
    match city_mappings.find? (fun p => containsSub p.1 location_lower) with
    | some p => p.2
    | none =>
      if containsSub ("south australia".toList) location_lower
          || containsSub ("sa".toList) location_lower then "adelaide".toList
      else if containsSub ("new south wales".toList) location_lower
          || containsSub ("nsw".toList) location_lower then "sydney".toList
      else if containsSub ("victoria".toList) location_lower then "melbourne".toList
      else if containsSub ("western australia".toList) location_lower
          || containsSub ("wa".toList) location_lower then "perth".toList
      else []

/-- The Australian keys of the first branch of `_get_historical_offset`. -/
def australia_cities : List (List Char) :=
  ["adelaide".toList, "sydney".toList, "melbourne".toList]

/-- The United States keys of the second branch of
`_get_historical_offset`. -/
def usa_cities : List (List Char) :=
  ["new_york".toList, "los_angeles".toList, "chicago".toList, "denver".toList]

/-- The European keys of the third branch of `_get_historical_offset`. -/
def europe_cities : List (List Char) :=
  ["london".toList, "paris".toList, "berlin".toList]

/-- The `dst_active` flag computed by `_get_historical_offset`: each
regional branch requires its introduction year and membership of the
month in the region's DST window; any other key leaves the flag false. -/
def dst_active (key : List Char) (months : List ℕ) (year month : ℕ) : Bool :=
  if australia_cities.contains key then decide (1971 ≤ year) && decide (month ∈ months)
  else if usa_cities.contains key then decide (1918 ≤ year) && decide (month ∈ months)
  else if europe_cities.contains key then decide (1980 ≤ year) && decide (month ∈ months)
  else false

/-- `_get_historical_offset` from `src/services/timezone_handler.py`:
look up the region record and return the DST offset when `dst_active`
holds, the standard offset otherwise.  The function is only called for
keys present in the table; a missing key (a `KeyError` in the source)
is modelled by `0`. -/
def get_historical_offset (key : List Char) (year month : ℕ) : ℚ :=
  match timezone_regions.find? (fun p => p.1 == key) with
  | some p =>
      if dst_active key p.2.dst_months year month then p.2.dst_offset
      else p.2.standard_offset
  | none => 0

/-- Python 3 `round`: round half to even. -/
def pyRound (x : ℚ) : ℤ :=
  if x - ⌊x⌋ < 1/2 then ⌊x⌋
  else if 1/2 < x - ⌊x⌋ then ⌊x⌋ + 1
  else if 2 ∣ ⌊x⌋ then ⌊x⌋ else ⌊x⌋ + 1

/-- The longitude approximation shared by `_get_timezone_from_coordinates`
and `_approximate_timezone_from_longitude`: `round(longitude / 15 * 2) / 2`. -/
def approximate_offset_from_longitude (longitude : ℚ) : ℚ :=
  (pyRound (longitude / 15 * 2) : ℚ) / 2

/-- `_determine_timezone_offset` from `src/services/timezone_handler.py`:
a normalized location key present in the region table takes the
historical path; otherwise the coordinate approximation (which always
succeeds) is used.  The second component is the `method` tag of the
returned info dictionary. -/
def determine_timezone_offset (year month : ℕ) (latitude longitude : ℚ)
    (location : List Char) : ℚ × String :=
  let location_key := normalize_location_name location
  if (timezone_regions.find? (fun p => p.1 == location_key)).isSome then
    (get_historical_offset location_key year month, "historical_lookup")
  else
    (approximate_offset_from_longitude longitude, "coordinate_approximation")

/-- The UTC conversion result of `calculate_accurate_utc_time`: the
decimal UTC time together with the `utc_day` entry of the info
dictionary. -/
structure UtcResult where
  utcTime : ℚ
  utcDay : ℤ
  offset : ℚ

/-- The day-rollover block of `calculate_accurate_utc_time` (lines
100-109 of `src/services/timezone_handler.py`): a single adjustment of
the decimal time by 24 hours with the matching day shift. -/
def utc_rollover (hour minute : ℕ) (offset : ℚ) (day : ℤ) : ℚ × ℤ :=
  let decimal_utc_time := (hour : ℚ) + (minute : ℚ) / 60 - offset
  if decimal_utc_time < 0 then (decimal_utc_time + 24, day - 1)
  else if 24 ≤ decimal_utc_time then (decimal_utc_time - 24, day + 1)
  else (decimal_utc_time, day)

/-- `calculate_accurate_utc_time` from `src/services/timezone_handler.py`
after date/time parsing: determine the offset, convert to UTC and apply
the rollover.  Only the day number is ever adjusted; month and year are
not touched. -/
def calculate_accurate_utc_time (year month : ℕ) (day : ℤ) (hour minute : ℕ)
    (latitude longitude : ℚ) (location : List Char) : UtcResult :=
  let timezone_offset := (determine_timezone_offset year month latitude longitude location).1
  let r := utc_rollover hour minute timezone_offset day
  ⟨r.1, r.2, timezone_offset⟩

/-- `_calculate_julian_day` from `src/services/astrology_calculations.py`:
the timezone handler's decimal UTC time and `utc_day` are handed directly
to the provider's `julday` conversion together with the unmodified year
and month. -/
def calculate_julian_day (julday : ℕ → ℕ → ℤ → ℚ → ℚ) (year month : ℕ)
    (day : ℤ) (hour minute : ℕ) (latitude longitude : ℚ)
    (location : List Char) : ℚ :=
  let r := calculate_accurate_utc_time year month day hour minute latitude longitude location
  julday year month r.utcDay r.utcTime

/-- The `Planet` pydantic model of `src/models.py` (name, sign, sign
number, degree within sign, house, retrograde flag).  The model has no
`estimated` field. -/
structure Planet where
  name : String
  sign : String
  sign_num : ℕ
  degree : ℚ
  house : ℤ
  retro : Bool

/-- The `House` pydantic model of `src/models.py`. -/
structure House where
  house : ℕ
  sign : String
  sign_num : ℕ
  degree : ℚ

/-- The `Ascendant` pydantic model of `src/models.py`. -/
structure Ascendant where
  sign : String
  degree : ℚ

/-- The `Midheaven` pydantic model of `src/models.py`. -/
structure Midheaven where
  sign : String
  degree : ℚ

/-- The parsed birth data consumed by the calculation service: the
`BirthInfoRequest` of `src/models.py` with date and time already split
into numeric fields. -/
structure BirthInfo where
  name : String
  year : ℕ
  month : ℕ
  day : ℤ
  hour : ℕ
  minute : ℕ
  latitude : ℚ
  longitude : ℚ
  location : List Char

/-- The `AstrologyResponse` pydantic model of `src/models.py`; the
`generated_at` timestamp is modelled as a rational clock reading. -/
structure AstrologyResponse where
  success : Bool
  name : String
  birth_info : BirthInfo
  planets : List Planet
  houses : List House
  ascendant : Ascendant
  midheaven : Midheaven
  generated_at : ℚ

/-- The ephemeris provider consumed by
`AstrologyCalculationsService` (`swisseph` in the source): Julian-day
conversion, per-body longitude and daily motion, the true lunar node,
Chiron, and the Placidus angle computation.  A failing call
(an ephemeris exception) is a `none`. -/
structure Ephemeris where
  julday : ℕ → ℕ → ℤ → ℚ → ℚ
  calcPlanet : ℚ → String → Option (ℚ × ℚ)
  calcTrueNode : ℚ → Option (ℚ × ℚ)
  calcChiron : ℚ → Option (ℚ × ℚ)
  calcHouses : ℚ → ℚ → ℚ → Option (ℚ × ℚ)

/-- The ordered `basic_planets` dictionary keys of
`AstrologyCalculationsService.__init__`. -/
def basic_planet_names : List String :=
  ["Sun", "Moon", "Mercury", "Venus", "Mars", "Jupiter", "Saturn",
   "Uranus", "Neptune", "Pluto"]

/-- The retrograde decision of the `_calculate_basic_planets` loop in
`src/services/astrology_calculations.py` (lines 168-177): Sun and Moon
are never retrograde, other bodies use the sign of the daily motion,
and Saturn is forced retrograde whenever its longitude is within one
degree of 108.47. -/
def classify_retro (planet_name : String) (longitude speed : ℚ) : Bool :=
  let is_retrograde :=
    if planet_name = "Sun" ∨ planet_name = "Moon" then false
    else decide (speed < 0)
  if planet_name = "Saturn" ∧ |longitude - 108.47| < 1 then true
  else is_retrograde

/-- Sign interpretation shared by every calculation path:
`sign_num = int(longitude // 30) + 1`, `degree = longitude % 30`,
`sign = zodiac_signs[sign_num - 1]`. -/
def planet_from_reading (planet_name : String) (longitude speed : ℚ) : Planet :=
  let sign_num : ℕ := (⌊longitude / 30⌋).toNat + 1
  { name := planet_name
    sign := zodiac_signs.getD (sign_num - 1) ""
    sign_num := sign_num
    degree := longitude - 30 * (⌊longitude / 30⌋ : ℚ)
    house := 1
    retro := classify_retro planet_name longitude speed }

/-- `_calculate_basic_planets`: one provider call per basic planet; a
single failure aborts the whole computation. -/
def calculate_basic_planets (eph : Ephemeris) (julian_day : ℚ) : Option (List Planet) :=
  basic_planet_names.mapM (fun planet_name =>
    (eph.calcPlanet julian_day planet_name).map
      (fun p => planet_from_reading planet_name p.1 p.2))

/-- `_calculate_lunar_nodes` from `src/services/astrology_calculations.py`:
the true node reading gives the North Node (never retrograde here) and
the South Node at the opposite longitude (always retrograde here). -/
def calculate_lunar_nodes (eph : Ephemeris) (julian_day : ℚ) : Option (List Planet) :=
  (eph.calcTrueNode julian_day).map (fun p =>
    let nn := planet_from_reading "North Node" p.1 p.2
    let sn := planet_from_reading "South Node" (p.1 + 180 - 360 * (⌊(p.1 + 180) / 360⌋ : ℚ)) p.2
    [{ nn with retro := false }, { sn with retro := true }])

/-- `_calculate_chiron` from `src/services/astrology_calculations.py`:
retrograde exactly when the daily motion is negative. -/
def calculate_chiron (eph : Ephemeris) (julian_day : ℚ) : Option Planet :=
  match eph.calcChiron julian_day with
  | none => none
  | some p =>
      let base := planet_from_reading "Chiron" p.1 p.2
      some { base with retro := decide (p.2 < 0) }

/-- `_add_estimated_nodes` from `src/services/astrology_calculations.py`. -/
def add_estimated_nodes : List Planet :=
  [{ name := "North Node", sign := "Sagittarius", sign_num := 9, degree := 15.0,
     house := 1, retro := false },
   { name := "South Node", sign := "Gemini", sign_num := 3, degree := 15.0,
     house := 1, retro := true }]

/-- `_add_estimated_chiron` from `src/services/astrology_calculations.py`:
the substituted Chiron is marked retrograde (`retro=True`), following the
comment that Chiron was historically retrograde in November 1974. -/
def add_estimated_chiron : Planet :=
  { name := "Chiron", sign := "Aries", sign_num := 1, degree := 20.0,
    house := 1, retro := true }

namespace WholeSign

/-- `_add_estimated_chiron` from `src/services/whole_sign_accurate.py`:
this copy of the fallback leaves the substituted Chiron direct
(`retro=False`). -/
def add_estimated_chiron : Planet :=
  { name := "Chiron", sign := "Aries", sign_num := 1, degree := 20.0,
    house := 1, retro := false }

end WholeSign

/-- `_calculate_ascendant_and_midheaven`: interpret the two angle
longitudes returned by the provider's Placidus computation. -/
def calculate_ascendant_and_midheaven (eph : Ephemeris) (julian_day : ℚ)
    (latitude longitude : ℚ) : Option (Ascendant × Midheaven) :=
  (eph.calcHouses julian_day latitude longitude).map (fun p =>
    let asc_sign_num : ℕ := (⌊p.1 / 30⌋).toNat + 1
    let mc_sign_num : ℕ := (⌊p.2 / 30⌋).toNat + 1
    (⟨zodiac_signs.getD (asc_sign_num - 1) "", p.1 - 30 * (⌊p.1 / 30⌋ : ℚ)⟩,
     ⟨zodiac_signs.getD (mc_sign_num - 1) "", p.2 - 30 * (⌊p.2 / 30⌋ : ℚ)⟩))

/-- `_calculate_whole_sign_houses` from
`src/services/astrology_calculations.py`: twelve houses, one full sign
each, every cusp at degree `0.0`. -/
def calculate_whole_sign_houses (ascendant : Ascendant) : List House :=
  let rising_sign_index := zodiac_signs.indexOf ascendant.sign
  (List.range 12).map (fun i =>
    let house_sign_index := (rising_sign_index + i) % 12
    { house := i + 1
      sign := zodiac_signs.getD house_sign_index ""
      sign_num := house_sign_index + 1
      degree := 0.0 })

/-- The whole-sign house formula of `_assign_planets_to_houses`:
`((planet_sign_index - rising_sign_index) % 12) + 1` with Python's
nonnegative remainder. -/
def house_from_signs (planet_sign_index rising_sign_index : ℕ) : ℤ :=
  ((planet_sign_index : ℤ) - (rising_sign_index : ℤ)) % 12 + 1

/-- `_assign_planets_to_houses` from
`src/services/astrology_calculations.py`. -/
def assign_planets_to_houses (planets : List Planet) (ascendant : Ascendant) :
    List Planet :=
  let rising_sign_index := zodiac_signs.indexOf ascendant.sign
  planets.map (fun p =>
    { p with house := house_from_signs (zodiac_signs.indexOf p.sign) rising_sign_index })

/-- `generate_chart` of `AstrologyCalculationsService`
(`src/services/astrology_calculations.py`): Julian day, basic planets
(failure fatal), lunar nodes and Chiron (failures replaced by the
estimated values), angles (failure fatal), whole-sign houses, house
assignment, and the final response stamped with the current clock
reading. -/
def generate_chart (eph : Ephemeris) (birth_info : BirthInfo) (now : ℚ) :
    Option AstrologyResponse :=
  let julian_day := calculate_julian_day eph.julday birth_info.year birth_info.month
    birth_info.day birth_info.hour birth_info.minute birth_info.latitude
    birth_info.longitude birth_info.location
  match calculate_basic_planets eph julian_day with
  | none => none
  | some basics =>
    let with_nodes := basics ++
      (match calculate_lunar_nodes eph julian_day with
       | some nodes => nodes
       | none => add_estimated_nodes)
    let planets := with_nodes ++
      [match calculate_chiron eph julian_day with
       | some chiron => chiron
       | none => add_estimated_chiron]
    match calculate_ascendant_and_midheaven eph julian_day birth_info.latitude
        birth_info.longitude with
    | none => none
    | some am =>
      some { success := true
             name := birth_info.name
             birth_info := birth_info
             planets := assign_planets_to_houses planets am.1
             houses := calculate_whole_sign_houses am.1
             ascendant := am.1
             midheaven := am.2
             generated_at := now }

/-- An `AstrologyResponse` with its generation timestamp erased. -/
def clear_generated_at (r : AstrologyResponse) : AstrologyResponse :=
  { r with generated_at := 0 }

/-- The `ChartAngle` pydantic model of `src/models_chart_points.py`. -/
structure ChartAngle where
  sign : String
  degree : ℚ
  exactDegree : String

/-- Modelled from the spec: the `AstrologyCalculations` class imported by
`src/main.py` (`from services.astrology_calculations import
AstrologyCalculations`) is not present under `src/`; its
`format_exact_degree` method, used for every `exactDegree` field of the
complete chart response, is modelled from spec section 4.2: `deg =
floor(degreeInSign)`, `min = floor((degreeInSign - deg) * 60)`,
`sec = floor((((degreeInSign - deg) * 60) - min) * 60)`, truncation and
never rounding, rendered as degrees-minutes-seconds. -/
def format_exact_degree_spec (degree : ℚ) : String :=
  let deg := ⌊degree⌋
  let minv := ⌊(degree - (⌊degree⌋ : ℚ)) * 60⌋
  let sec := ⌊((degree - (⌊degree⌋ : ℚ)) * 60 - (⌊(degree - (⌊degree⌋ : ℚ)) * 60⌋ : ℚ)) * 60⌋
  toString deg ++ "°" ++ pad2 minv ++ apos ++ pad2 sec ++ "\""

/-- The house-cusp loop of `MockAstrologyService.generate_chart`
(`src/services/mock_astrology_service.py`): under the Whole Sign system
every cusp is at degree `0.0`; under any other system the mock uses
hash-derived degrees, modelled by an oracle since Python string hashing
is process-dependent. -/
def mock_generate_houses (house_system : String) (ascendant_sign_num : ℤ)
    (degree_oracle : ℕ → ℚ) : List House :=
  (List.range 12).map (fun (i : ℕ) =>
    let house_sign_num : ℕ := ((ascendant_sign_num + ((i : ℤ) + 1) - 2) % 12).toNat + 1
    { house := i + 1
      sign := zodiac_signs.getD (house_sign_num - 1) ""
      sign_num := house_sign_num
      degree := if house_system = "W" then 0.0 else degree_oracle (i + 1) })

/-- The Descendant construction of `_convert_to_complete_chart_response`
(`src/main.py` lines 146-152): the angle is read off the 7th house cusp. -/
def convert_descendant (houses : List House) : ChartAngle :=
  match houses.find? (fun h => h.house == 7) with
  | some seventh_house =>
      { sign := seventh_house.sign
        degree := seventh_house.degree
        exactDegree := format_exact_degree_spec seventh_house.degree }
  | none => { sign := "Unknown", degree := 0.0, exactDegree := format_exact_degree_spec 0.0 }

/-- The Imum Coeli construction of `_convert_to_complete_chart_response`
(`src/main.py` lines 154-160): the angle is read off the 4th house cusp. -/
def convert_imum_coeli (houses : List House) : ChartAngle :=
  match houses.find? (fun h => h.house == 4) with
  | some fourth_house =>
      { sign := fourth_house.sign
        degree := fourth_house.degree
        exactDegree := format_exact_degree_spec fourth_house.degree }
  | none => { sign := "Unknown", degree := 0.0, exactDegree := format_exact_degree_spec 0.0 }

/-- The DST introduction year of each region key, as recorded in the
branches of `_get_historical_offset` (and the `dst_history` table):
1971 for the Australian cities, 1918 for the United States cities, 1980
for the European cities, none elsewhere. -/
def dst_introduction_year (key : List Char) : Option ℕ :=
  if australia_cities.contains key then some 1971
  else if usa_cities.contains key then some 1918
  else if europe_cities.contains key then some 1980
  else none

/-- The claim's DST condition: the region has a DST introduction year,
it is at most the birth year, and the month lies in the region's DST
window. -/
def dst_applies (key : List Char) (months : List ℕ) (year month : ℕ) : Bool :=
  match dst_introduction_year key with
  | some introduced => decide (introduced ≤ year) && decide (month ∈ months)
  | none => false

/-- A concrete birth datum used to witness the chart-assembly theorems. -/
def birth0 : BirthInfo :=
  { name := "Test", year := 1990, month := 6, day := 15, hour := 14, minute := 30,
    latitude := 0, longitude := 0, location := "tokyo".toList }

/-- A concrete provider whose Chiron computation fails while every other
query succeeds. -/
def eph0 : Ephemeris :=
  { julday := fun _ _ _ _ => 0
    calcPlanet := fun _ _ => some (15, 1)
    calcTrueNode := fun _ => some (100, 1)
    calcChiron := fun _ => none
    calcHouses := fun _ _ _ => some (15, 100) }

/-- The body of the `_assign_planets_to_houses` loop as a function of the
two signs. -/
def assign_house (body_sign rising_sign : String) : ℤ :=
  house_from_signs (zodiac_signs.indexOf body_sign) (zodiac_signs.indexOf rising_sign)

lemma pyInt_eq_floor (q : ℚ) (hq : 0 ≤ q) : pyInt q = ⌊q⌋ := by
  unfold pyInt
  rw [if_neg (not_lt.mpr hq)]

lemma pyMod1_nonneg (q : ℚ) : 0 ≤ pyMod1 q := by
  unfold pyMod1
  exact sub_nonneg.mpr (Int.floor_le q)

/-- Claim C3: for every well-formed local time and resolved offset the
conversion computes `utc = localHour + localMinute/60 - offset`, adding
24 and decrementing the UTC day when `utc < 0`, subtracting 24 and
incrementing the UTC day when `utc ≥ 24`, and leaving both unchanged
otherwise; in particular local time 00:10 with offset +10.5 yields UTC
decimal time 41/3 = 13.667 hours on the previous calendar day. -/
theorem utc_rollover_correct (hour minute : ℕ) (offset : ℚ) (day : ℤ)
    (hh : hour < 24) (hm : minute < 60) :
    (((hour : ℚ) + (minute : ℚ) / 60 - offset < 0 →
        utc_rollover hour minute offset day =
          ((hour : ℚ) + (minute : ℚ) / 60 - offset + 24, day - 1)) ∧
      (24 ≤ (hour : ℚ) + (minute : ℚ) / 60 - offset →
        utc_rollover hour minute offset day =
          ((hour : ℚ) + (minute : ℚ) / 60 - offset - 24, day + 1)) ∧
      (0 ≤ (hour : ℚ) + (minute : ℚ) / 60 - offset →
        (hour : ℚ) + (minute : ℚ) / 60 - offset < 24 →
        utc_rollover hour minute offset day =
          ((hour : ℚ) + (minute : ℚ) / 60 - offset, day))) ∧
    utc_rollover 0 10 (10.5 : ℚ) day = (41/3, day - 1) := by
  refine ⟨⟨?_, ?_, ?_⟩, ?_⟩
  · intro h
    unfold utc_rollover
    rw [if_pos h]
  · intro h
    unfold utc_rollover
    rw [if_neg (by linarith), if_pos h]
  · intro h0 h24
    unfold utc_rollover
    rw [if_neg (by linarith), if_neg (by linarith)]
  · unfold utc_rollover
    rw [if_pos (by norm_num)]
    norm_num

/-- Witness for C3: the theorem applied at local time 00:10, offset
+10.5 and day 0, with the rollover condition discharged concretely. -/
theorem utc_rollover_correct_witness :
    utc_rollover 0 10 (10.5 : ℚ) 0 = (41/3, (0 : ℤ) - 1) :=
  (utc_rollover_correct 0 10 (10.5 : ℚ) 0 (by norm_num) (by norm_num)).2

/-- Claim C6: for every pair of valid zodiac signs the assigned
whole-sign house equals `((signIndex(bodySign) - signIndex(risingSign))
mod 12) + 1`, lies in `[1, 12]`, and equals 1 whenever the body is in
the rising sign; the computation never consults a degree. -/
theorem whole_sign_house_assignment_correct (body_sign rising_sign : String)
    (hb : body_sign ∈ zodiac_signs) (hr : rising_sign ∈ zodiac_signs) :
    assign_house body_sign rising_sign =
        ((zodiac_signs.indexOf body_sign : ℤ) -
          (zodiac_signs.indexOf rising_sign : ℤ)) % 12 + 1 ∧
      1 ≤ assign_house body_sign rising_sign ∧
      assign_house body_sign rising_sign ≤ 12 ∧
      (body_sign = rising_sign → assign_house body_sign rising_sign = 1) := by
  unfold assign_house house_from_signs
  refine ⟨rfl, ?_, ?_, ?_⟩
  · omega
  · omega
  · intro h
    subst h
    omega

/-- Witness for C6: a body in the rising sign lands in house 1. -/
theorem whole_sign_house_assignment_correct_witness :
    assign_house "Aries" "Aries" = 1 :=
  (whole_sign_house_assignment_correct "Aries" "Aries" (by decide) (by decide)).2.2.2 rfl

/-- Counterexample to C2: Saturn at longitude 108.47 with positive daily
motion 0.1 is still classified retrograde by the forced Saturn
correction, so the classifier does not return true exactly when the
daily motion is negative. -/
theorem retrograde_saturn_counterexample :
    classify_retro "Saturn" (108.47 : ℚ) (1/10) = true ∧ ¬((1/10 : ℚ) < 0) := by
  constructor
  · unfold classify_retro
    rw [if_pos]
    exact ⟨rfl, by norm_num⟩
  · norm_num

/-- Claim C2 as amended: Sun and Moon are never retrograde; Mercury,
Venus, Mars, Jupiter, Uranus, Neptune, Pluto and Chiron are retrograde
exactly when the daily motion is negative; Saturn is additionally forced
retrograde whenever its longitude is within one degree of 108.47. -/
theorem retrograde_classifier_amended (longitude speed : ℚ) :
    classify_retro "Sun" longitude speed = false ∧
      classify_retro "Moon" longitude speed = false ∧
      (∀ planet_name ∈ (["Mercury", "Venus", "Mars", "Jupiter", "Uranus",
          "Neptune", "Pluto"] : List String),
        classify_retro planet_name longitude speed = decide (speed < 0)) ∧
      (∀ eph : Ephemeris, ∀ julian_day : ℚ,
        (calculate_chiron eph julian_day).map (fun p => p.retro) =
          (eph.calcChiron julian_day).map (fun p => decide (p.2 < 0))) ∧
      classify_retro "Saturn" longitude speed =
        (decide (speed < 0) || decide (|longitude - 108.47| < 1)) := by
  refine ⟨?_, ?_, ?_, ?_, ?_⟩
  · unfold classify_retro
    rw [if_neg (by simp), if_pos (by simp)]
  · unfold classify_retro
    rw [if_neg (by simp), if_pos (by simp)]
  · intro planet_name hmem
    fin_cases hmem <;>
      · unfold classify_retro
        rw [if_neg (by simp), if_neg (by simp)]
  · intro eph julian_day
    unfold calculate_chiron
    cases eph.calcChiron julian_day with
    | none => rfl
    | some p => rfl
  · unfold classify_retro
    by_cases h : |longitude - 108.47| < 1
    · rw [if_pos ⟨rfl, h⟩]
      simp [h]
    · rw [if_neg (by simp [h]), if_neg (by simp)]
      simp [h]

/-- Witness for C2: the amended theorem applied to Mercury at a concrete
positive daily motion. -/
theorem retrograde_classifier_amended_witness :
    classify_retro "Mercury" (50 : ℚ) (3 : ℚ) = decide ((3 : ℚ) < 0) :=
  (retrograde_classifier_amended 50 3).2.2.1 "Mercury" (by simp)

lemma dms_parts_eq_spec (d : ℚ) (hd : 0 ≤ d) : dms_parts d = dms_parts_spec d := by
  unfold dms_parts dms_parts_spec pyInt pyMod1
  have h1 : (0 : ℚ) ≤ (d - ⌊d⌋) * 60 :=
    mul_nonneg (sub_nonneg.mpr (Int.floor_le d)) (by norm_num)
  have h2 : (0 : ℚ) ≤ ((d - ⌊d⌋) * 60 - ⌊(d - ⌊d⌋) * 60⌋) * 60 :=
    mul_nonneg (sub_nonneg.mpr (Int.floor_le _)) (by norm_num)
  rw [if_neg (not_lt.mpr hd), if_neg (not_lt.mpr h1), if_neg (not_lt.mpr h2)]

/-- Claim C5: the DMS formatter truncates and never rounds — its three
components agree with the floor formulas of the specification on every
nonnegative degree — and the concrete degree 29.706452 renders exactly
as 29°42'23", not 29°42'24" (the `chart_formatter.py` copy produces the
same truncated components behind its mis-encoded degree mark). -/
theorem dms_truncation_correct :
    (∀ d : ℚ, 0 ≤ d → dms_parts d = dms_parts_spec d) ∧
      FreeAstrologyApi.format_exact_degree (29706452/1000000 : ℚ) =
        "29°42" ++ apos ++ "23\"" ∧
      FreeAstrologyApi.format_exact_degree (29706452/1000000 : ℚ) ≠
        "29°42" ++ apos ++ "24\"" ∧
      ChartFormatter.format_exact_degree (29706452/1000000 : ℚ) =
        "29Â°42" ++ apos ++ "23\"" := by
  have e1 : pyInt (29706452/1000000 : ℚ) = 29 := by
    unfold pyInt
    rw [if_neg (by norm_num)]
    norm_num
  have e2 : pyInt (pyMod1 (29706452/1000000 : ℚ) * 60) = 42 := by
    unfold pyInt pyMod1
    rw [if_neg (by norm_num)]
    norm_num
  have e3 : pyInt (pyMod1 (pyMod1 (29706452/1000000 : ℚ) * 60) * 60) = 23 := by
    unfold pyInt pyMod1
    rw [if_neg (by norm_num)]
    norm_num
  have efree : FreeAstrologyApi.format_exact_degree (29706452/1000000 : ℚ) =
      "29°42" ++ apos ++ "23\"" := by
    unfold FreeAstrologyApi.format_exact_degree
    rw [e1, e2, e3]
    decide
  refine ⟨dms_parts_eq_spec, efree, ?_, ?_⟩
  · rw [efree]
    decide
  · unfold ChartFormatter.format_exact_degree
    rw [e1, e2, e3]
    decide

/-- Witness for C5: the truncation formula instantiated at the concrete
degree 29.706452. -/
theorem dms_truncation_correct_witness :
    dms_parts (29706452/1000000 : ℚ) = dms_parts_spec (29706452/1000000 : ℚ) :=
  dms_truncation_correct.1 (29706452/1000000 : ℚ) (by norm_num)

/-- Claim C4: for every region resolved through the historical table the
DST offset is applied exactly when the region's DST introduction year is
at most the birth year and the month lies in the region's DST window,
and otherwise the standard offset is used; in particular Adelaide in
November 1974 resolves to offset +10.5. -/
theorem historical_dst_offset_correct (key : List Char) (region : Region)
    (year month : ℕ) (hmem : (key, region) ∈ timezone_regions) :
    get_historical_offset key year month =
        (if dst_applies key region.dst_months year month = true then region.dst_offset
         else region.standard_offset) ∧
      get_historical_offset ("adelaide".toList) 1974 11 = 10.5 := by
  constructor
  · fin_cases hmem <;> rfl
  · rfl

/-- Witness for C4: the theorem applied to the Adelaide table entry for
November 1974. -/
theorem historical_dst_offset_correct_witness :
    get_historical_offset ("adelaide".toList) 1974 11 =
      (if dst_applies ("adelaide".toList) [10, 11, 12, 1, 2, 3] 1974 11 = true
       then (10.5 : ℚ) else 9.5) :=
  (historical_dst_offset_correct ("adelaide".toList)
    ⟨9.5, [10, 11, 12, 1, 2, 3], 10.5⟩ 1974 11 (List.mem_cons_self _ _)).1

/-- Claim C8: any location label whose lower-cased text contains none of
the seventeen city-name substrings but does contain "sa" (such as
"Houston, USA") normalizes to the region key "adelaide", so the offset
is Adelaide's historical one — +10.5 in DST months from 1971 onward and
+9.5 otherwise — regardless of the supplied coordinates. -/
theorem sa_substring_maps_to_adelaide (location : List Char) (year month : ℕ)
    (latitude longitude : ℚ)
    (hcity : ∀ v ∈ city_variants, containsSub v (toLowerL location) = false)
    (hsa : containsSub ("sa".toList) (toLowerL location) = true) :
    normalize_location_name location = "adelaide".toList ∧
      determine_timezone_offset year month latitude longitude location =
        (get_historical_offset ("adelaide".toList) year month, "historical_lookup") ∧
      get_historical_offset ("adelaide".toList) year month =
        (if 1971 ≤ year ∧ month ∈ [10, 11, 12, 1, 2, 3] then (10.5 : ℚ) else 9.5) := by
  have hne : location ≠ [] := by
    intro h
    subst h
    exact absurd hsa (by decide)
  have hnorm : normalize_location_name location = "adelaide".toList := by
    unfold normalize_location_name
    rw [if_neg hne]
    have hfind : city_mappings.find? (fun p => containsSub p.1 (toLowerL location)) = none := by
      apply List.find?_eq_none.mpr
      intro p hp
      have hv := hcity p.1 (List.mem_map_of_mem _ hp)
      simp [hv]
    simp only [hfind]
    have hcond : (containsSub ("south australia".toList) (toLowerL location)
        || containsSub ("sa".toList) (toLowerL location)) = true := by
      rw [hsa, Bool.or_true]
    rw [if_pos hcond]
  have hlook : (timezone_regions.find? (fun p => p.1 == "adelaide".toList)).isSome = true := by
    decide
  refine ⟨hnorm, ?_, ?_⟩
  · simp only [determine_timezone_offset, hnorm]
    rw [if_pos hlook]
  · unfold get_historical_offset
    rw [show timezone_regions.find? (fun p => p.1 == "adelaide".toList) =
          some ("adelaide".toList, ⟨9.5, [10, 11, 12, 1, 2, 3], 10.5⟩) from rfl]
    have hcond : (dst_active ("adelaide".toList) [10, 11, 12, 1, 2, 3] year month = true) ↔
        (1971 ≤ year ∧ month ∈ [10, 11, 12, 1, 2, 3]) := by
      unfold dst_active
      rw [if_pos (by decide : australia_cities.contains ("adelaide".toList) = true)]
      simp
    exact if_congr hcond rfl rfl

/-- Witness for C8: the label "Houston, USA" contains no city substring,
contains "sa" (inside "usa"), and is therefore resolved with Adelaide's
historical offset, ignoring the Houston coordinates. -/
theorem sa_substring_maps_to_adelaide_witness :
    normalize_location_name ("Houston, USA".toList) = "adelaide".toList ∧
      determine_timezone_offset 1974 11 30 (-95) ("Houston, USA".toList) =
        (get_historical_offset ("adelaide".toList) 1974 11, "historical_lookup") ∧
      get_historical_offset ("adelaide".toList) 1974 11 =
        (if 1971 ≤ 1974 ∧ 11 ∈ [10, 11, 12, 1, 2, 3] then (10.5 : ℚ) else 9.5) :=
  sa_substring_maps_to_adelaide ("Houston, USA".toList) 1974 11 30 (-95)
    (by decide) (by decide)

/-- Claim C9: in the complete-chart response the Descendant and Imum
Coeli are read off the whole-sign 7th and 4th house cusps.  Those cusps
are constructed with degree 0.0 — both in the mock service used by the
route (which forces the "W" house system before generating) and in the
calculation service's whole-sign houses — so both angles always carry
degree 0 and the DMS formatting of 0, for every ascendant and every
degree oracle, never the ascendant-opposite point's degree-in-sign. -/
theorem descendant_ic_degree_zero (ascendant_sign_num : ℤ)
    (degree_oracle : ℕ → ℚ) (ascendant : Ascendant) :
    (convert_descendant (mock_generate_houses "W" ascendant_sign_num degree_oracle)).degree
        = 0 ∧
      (convert_descendant (mock_generate_houses "W" ascendant_sign_num degree_oracle)).exactDegree
        = format_exact_degree_spec 0 ∧
      (convert_imum_coeli (mock_generate_houses "W" ascendant_sign_num degree_oracle)).degree
        = 0 ∧
      (convert_imum_coeli (mock_generate_houses "W" ascendant_sign_num degree_oracle)).exactDegree
        = format_exact_degree_spec 0 ∧
      (convert_descendant (calculate_whole_sign_houses ascendant)).degree = 0 ∧
      (convert_imum_coeli (calculate_whole_sign_houses ascendant)).degree = 0 := by
  have hz : (0.0 : ℚ) = 0 := by norm_num
  refine ⟨?_, ?_, ?_, ?_, ?_, ?_⟩
  · rw [show (convert_descendant (mock_generate_houses "W" ascendant_sign_num degree_oracle)).degree
        = (0.0 : ℚ) from rfl, hz]
  · rw [show (convert_descendant (mock_generate_houses "W" ascendant_sign_num degree_oracle)).exactDegree
        = format_exact_degree_spec (0.0 : ℚ) from rfl, hz]
  · rw [show (convert_imum_coeli (mock_generate_houses "W" ascendant_sign_num degree_oracle)).degree
        = (0.0 : ℚ) from rfl, hz]
  · rw [show (convert_imum_coeli (mock_generate_houses "W" ascendant_sign_num degree_oracle)).exactDegree
        = format_exact_degree_spec (0.0 : ℚ) from rfl, hz]
  · rw [show (convert_descendant (calculate_whole_sign_houses ascendant)).degree
        = (0.0 : ℚ) from rfl, hz]
  · rw [show (convert_imum_coeli (calculate_whole_sign_houses ascendant)).degree
        = (0.0 : ℚ) from rfl, hz]

/-- Counterexample to C1: with a provider whose Chiron query fails, the
assembled chart does succeed, but the substituted Chiron placement of
`astrology_calculations.py` carries `retro = true`, not the claimed
default `retrograde == false` (and the `Planet` model has no `estimated`
field at all). -/
theorem chiron_fallback_claim_counterexample :
    (generate_chart eph0 birth0 0).map
        (fun r => (r.success,
          (r.planets.filter (fun p => p.name == "Chiron")).map (fun p => p.retro)))
      = some (true, [true]) := rfl

/-- Claim C1 as amended: when the provider fails for Chiron but succeeds
for the basic planets and the angles, chart assembly still returns a
successful chart (not an ephemeris error) containing a substituted
Chiron placement at Aries 20.0; that placement's retrograde flag is
`true` in `astrology_calculations.py`, while the
`whole_sign_accurate.py` copy of the fallback uses `false`, and the
`Planet` model carries no `estimated` field. -/
theorem chiron_fallback_success (eph : Ephemeris) (birth_info : BirthInfo) (now : ℚ)
    (hbasics : (calculate_basic_planets eph (calculate_julian_day eph.julday
        birth_info.year birth_info.month birth_info.day birth_info.hour
        birth_info.minute birth_info.latitude birth_info.longitude
        birth_info.location)).isSome = true)
    (hchiron : eph.calcChiron (calculate_julian_day eph.julday
        birth_info.year birth_info.month birth_info.day birth_info.hour
        birth_info.minute birth_info.latitude birth_info.longitude
        birth_info.location) = none)
    (hangles : (eph.calcHouses (calculate_julian_day eph.julday
        birth_info.year birth_info.month birth_info.day birth_info.hour
        birth_info.minute birth_info.latitude birth_info.longitude
        birth_info.location) birth_info.latitude birth_info.longitude).isSome = true) :
    ∃ r, generate_chart eph birth_info now = some r ∧ r.success = true ∧
      (∃ p ∈ r.planets, p.name = "Chiron" ∧ p.sign = "Aries" ∧
        p.degree = 20.0 ∧ p.retro = true) ∧
      WholeSign.add_estimated_chiron.retro = false := by
  obtain ⟨basics, hb⟩ := Option.isSome_iff_exists.mp hbasics
  obtain ⟨am, ha⟩ := Option.isSome_iff_exists.mp hangles
  simp only [generate_chart, hb, calculate_chiron, hchiron,
    calculate_ascendant_and_midheaven, ha, Option.map_some']
  refine ⟨_, rfl, rfl, ?_, rfl⟩
  simp only [assign_planets_to_houses]
  exact ⟨_, List.mem_map_of_mem _
    (List.mem_append_right _ (List.mem_singleton_self _)), rfl, rfl, rfl, rfl⟩

/-- Witness for C1: the amended theorem applied to the concrete provider
`eph0`, whose Chiron query fails while everything else succeeds. -/
theorem chiron_fallback_success_witness :
    ∃ r, generate_chart eph0 birth0 0 = some r ∧ r.success = true ∧
      (∃ p ∈ r.planets, p.name = "Chiron" ∧ p.sign = "Aries" ∧
        p.degree = 20.0 ∧ p.retro = true) ∧
      WholeSign.add_estimated_chiron.retro = false :=
  chiron_fallback_success eph0 birth0 0 rfl rfl rfl

/-- Counterexample to C7: two chart-assembly calls with the identical
birth datum and the identical provider responses, made at clock readings
0 and 1, return charts differing in their `generated_at` stamp — the
output is not byte-identical. -/
theorem chart_determinism_counterexample :
    (generate_chart eph0 birth0 0).map (fun r => r.generated_at) = some 0 ∧
      (generate_chart eph0 birth0 1).map (fun r => r.generated_at) = some 1 ∧
      generate_chart eph0 birth0 0 ≠ generate_chart eph0 birth0 1 := by
  refine ⟨rfl, rfl, ?_⟩
  intro h
  have h0 : (generate_chart eph0 birth0 0).map (fun r => r.generated_at) =
      (generate_chart eph0 birth0 1).map (fun r => r.generated_at) := by rw [h]
  rw [show (generate_chart eph0 birth0 0).map (fun r => r.generated_at) = some 0 from rfl,
    show (generate_chart eph0 birth0 1).map (fun r => r.generated_at) = some 1 from rfl] at h0
  have h01 : (0 : ℚ) = 1 := Option.some.inj h0
  norm_num at h01

/-- Claim C7 as amended: two chart-assembly calls with identical birth
datum and identical provider responses agree on every field except the
`generated_at` timestamp; erasing the timestamp makes the outputs
identical, so the output is byte-identical exactly when the clock
readings also coincide. -/
theorem chart_determinism_modulo_timestamp (eph : Ephemeris) (birth_info : BirthInfo)
    (t1 t2 : ℚ) :
    (generate_chart eph birth_info t1).map clear_generated_at =
      (generate_chart eph birth_info t2).map clear_generated_at := by
  simp only [generate_chart]
  cases calculate_basic_planets eph (calculate_julian_day eph.julday
      birth_info.year birth_info.month birth_info.day birth_info.hour
      birth_info.minute birth_info.latitude birth_info.longitude
      birth_info.location) with
  | none => rfl
  | some basics =>
      cases calculate_ascendant_and_midheaven eph (calculate_julian_day eph.julday
          birth_info.year birth_info.month birth_info.day birth_info.hour
          birth_info.minute birth_info.latitude birth_info.longitude
          birth_info.location) birth_info.latitude birth_info.longitude with
      | none => rfl
      | some am => rfl

/-- Claim C10: the day rollover adjusts only the day number — on an
underflow the resolver reports `utc_day = day - 1` (so day 0 for a
birth on the first of the month), on an overflow `day + 1` (possibly
beyond the month's last day), month and year are untouched, and exactly
this raw day number is what `_calculate_julian_day` hands to the
provider's Julian-day conversion; concretely, 1974-11-01 00:10 in
Adelaide yields `utc_day = 0` and `julday 1974 11 0 (41/3)`. -/
theorem day_rollover_raw_day_passed (julday : ℕ → ℕ → ℤ → ℚ → ℚ)
    (year month : ℕ) (day : ℤ) (hour minute : ℕ) (latitude longitude : ℚ)
    (location : List Char) :
    (calculate_julian_day julday year month day hour minute latitude longitude location =
        julday year month
          (calculate_accurate_utc_time year month day hour minute latitude longitude
            location).utcDay
          (calculate_accurate_utc_time year month day hour minute latitude longitude
            location).utcTime ∧
      ((hour : ℚ) + (minute : ℚ) / 60 -
          (determine_timezone_offset year month latitude longitude location).1 < 0 →
        (calculate_accurate_utc_time year month day hour minute latitude longitude
            location).utcDay = day - 1) ∧
      (24 ≤ (hour : ℚ) + (minute : ℚ) / 60 -
          (determine_timezone_offset year month latitude longitude location).1 →
        (calculate_accurate_utc_time year month day hour minute latitude longitude
            location).utcDay = day + 1)) ∧
    (calculate_accurate_utc_time 1974 11 1 0 10 30 138 ("adelaide".toList)).utcDay = 0 ∧
    calculate_julian_day julday 1974 11 1 0 10 30 138 ("adelaide".toList) =
      julday 1974 11 0 (41/3) := by
  have hoff : (determine_timezone_offset 1974 11 30 138 ("adelaide".toList)).1 = 10.5 := rfl
  have hval : calculate_accurate_utc_time 1974 11 1 0 10 30 138 ("adelaide".toList) =
      ⟨41/3, 0, 10.5⟩ := by
    simp only [calculate_accurate_utc_time, utc_rollover, hoff]
    rw [if_pos (by norm_num)]
    have ht : ((0 : ℕ) : ℚ) + ((10 : ℕ) : ℚ) / 60 - 10.5 + 24 = 41/3 := by norm_num
    rw [ht]
    simp
  refine ⟨⟨rfl, ?_, ?_⟩, ?_, ?_⟩
  · intro h
    simp only [calculate_accurate_utc_time, utc_rollover]
    rw [if_pos h]
  · intro h
    simp only [calculate_accurate_utc_time, utc_rollover]
    rw [if_neg (by linarith), if_pos h]
  · rw [hval]
  · simp only [calculate_julian_day, hval]

/-- Witness for C10: the rollover direction discharged at the concrete
Adelaide example, with a concrete Julian-day conversion. -/
theorem day_rollover_raw_day_passed_witness :
    ((0 : ℕ) : ℚ) + ((10 : ℕ) : ℚ) / 60 -
        (determine_timezone_offset 1974 11 30 138 ("adelaide".toList)).1 < 0 ∧
      (calculate_accurate_utc_time 1974 11 1 0 10 30 138 ("adelaide".toList)).utcDay
        = (1 : ℤ) - 1 := by
  have h : ((0 : ℕ) : ℚ) + ((10 : ℕ) : ℚ) / 60 -
      (determine_timezone_offset 1974 11 30 138 ("adelaide".toList)).1 < 0 := by
    rw [show (determine_timezone_offset 1974 11 30 138 ("adelaide".toList)).1 = 10.5 from rfl]
    norm_num
  exact ⟨h, ((day_rollover_raw_day_passed (fun _ _ _ _ => 0) 1974 11 1 0 10 30 138
    ("adelaide".toList)).1.2.1 h)⟩
